import Mathlib

/-!
# test13.go of the emoji test pack

A shallow embedding of `Cleanup/Testing_Tools/test-emoji-pack/test13.go`.

The program is a single `main` that calls `fmt.Println` and `fmt.Printf`
five times on string operands.  Go strings that hold valid UTF-8 are
modelled as Lean `String`s (their bytes are `String.toUTF8`).  Standard
output is an `io.Writer`: a device with a state and a `Write` operation
that returns a byte count and an optional error.  The process state
carries a ghost log of the payload of every `Write` issued on standard
output, so that the order and number of writes can be stated.
-/

namespace Test13

/-! ## The process and its standard output -/

/-- What a process can read from its surroundings: command-line arguments,
environment variables and the files of the file system (path and contents). -/
structure Env where
  args : List String
  environ : List (String × String)
  files : List (String × String)

/-- The pair `(n int, err error)` returned by `Write`, `Println` and `Printf`;
`err = none` is the nil error. -/
structure WriteResult where
  n : Nat
  err : Option String
  deriving DecidableEq, Repr

/-- An `io.Writer` over a device with states in `σ`: `write d p` is the state
of the device after `Write(p)` in state `d`, with the values it returns. -/
structure Writer (σ : Type) where
  write : σ → String → σ × WriteResult

/-- State of the running process: its surroundings, the device behind
`os.Stdout`, and the payloads of the `Write` calls issued on `os.Stdout` so far,
oldest first. -/
structure Proc (σ : Type) where
  env : Env
  dev : σ
  calls : List String

/-- State of a process at start: nothing has been written yet. -/
def Proc.start {σ : Type} (env : Env) (d0 : σ) : Proc σ :=
  { env := env, dev := d0, calls := [] }

/-- Go code running in a process whose standard output has states in `σ`.
`none` stands for a run that leaves the fragment of `fmt` modelled here. -/
abbrev GoM (σ : Type) (α : Type) : Type := StateT (Proc σ) Option α

/-- The call `os.Stdout.Write(p)`: one `Write` on the device, logged. -/
def stdoutWrite {σ : Type} (wr : Writer σ) (p : String) : GoM σ WriteResult :=
  fun st =>
    let r := wr.write st.dev p
    some (r.2, { st with dev := r.1, calls := st.calls ++ [p] })

/-! ## The fragment of package `fmt` used by the program -/

/-- Body of `(*pp).doPrintln` on string operands: the operands in their default
format, a space before every operand but the first. -/
def doPrintlnArgs : Nat → List String → String
  | _, [] => ""
  | argNum, arg :: rest =>
    (if argNum > 0 then " " else "") ++ arg ++ doPrintlnArgs (argNum + 1) rest

/-- The buffer built by `(*pp).doPrintln` on string operands: the operands
separated by spaces, then a newline. -/
def doPrintln (a : List String) : String :=
  doPrintlnArgs 0 a ++ "\n"

/-- The operands left over after the format is used up, as `doPrintf` lists
them inside `%!(EXTRA ...)`. -/
def extraOperands : Nat → List String → String
  | _, [] => ""
  | i, arg :: rest =>
    (if i > 0 then ", " else "") ++ "string=" ++ arg ++ extraOperands (i + 1) rest

/-- End of `(*pp).doPrintf`: complain about operands that no verb consumed. -/
def doPrintfEnd (a : List String) : String :=
  match a with
  | [] => ""
  | _ :: _ => "%!(EXTRA " ++ extraOperands 0 a ++ ")"

/-- The buffer built by `(*pp).doPrintf` on a format (as its characters) and
string operands.  Modelled: literal text, `%%`, the verbs `%s` and `%v`
without flags, width or precision, a missing operand, a format ending in `%`,
and left-over operands.  Any other directive gives `none`. -/
def doPrintfChars : List Char → List String → Option String
  | [], a => some (doPrintfEnd a)
  | c :: fmt, a =>
    if c = '%' then
      match fmt with
      | [] => some ("%!(NOVERB)" ++ doPrintfEnd a)
      | verb :: fmt1 =>
        if verb = '%' then
          (doPrintfChars fmt1 a).map (fun s => "%" ++ s)
        else if verb = 's' ∨ verb = 'v' then
          match a with
          | [] => (doPrintfChars fmt1 []).map (fun s => ("%!".push verb) ++ "(MISSING)" ++ s)
          | arg :: rest => (doPrintfChars fmt1 rest).map (fun s => arg ++ s)
        else none
    else
      (doPrintfChars fmt a).map (fun s => (String.singleton c) ++ s)

/-- The buffer built by `(*pp).doPrintf` on a format string. -/
def doPrintf (format : String) (a : List String) : Option String :=
  doPrintfChars format.toList a

/-- The function `fmt.Println` on string operands: format, then a single
`Write` of the buffer on `os.Stdout`, whose results are returned. -/
def Println {σ : Type} (wr : Writer σ) (a : List String) : GoM σ WriteResult :=
  stdoutWrite wr (doPrintln a)

/-- The function `fmt.Printf` on string operands: format, then a single
`Write` of the buffer on `os.Stdout`, whose results are returned. -/
def Printf {σ : Type} (wr : Writer σ) (format : String) (a : List String) :
    GoM σ WriteResult :=
  match doPrintf format a with
  | none => failure
  | some buf => stdoutWrite wr buf

/-! ## The program -/

/-- The function `main` of test13.go. -/
def main {σ : Type} (wr : Writer σ) : GoM σ Unit := do
  let _ ← Println wr [" Starting Go emoji test..."]
  let status := " Success"
  let mode := " Test Mode"
  let version := " V1.0"
  let _ ← Printf wr "Status: %s\n" [status]
  let _ ← Printf wr "Mode: %s\n" [mode]
  let _ ← Printf wr "Version: %s\n" [version]
  let _ ← Println wr [" Go test complete!"]
  return ()

/-- A run of the program in surroundings `env` with standard output on the
device `wr` in state `d0`: `main` is invoked and, when it returns, the program
exits with status 0.  The result is the exit status and the final state. -/
def runMain {σ : Type} (wr : Writer σ) (env : Env) (d0 : σ) : Option (Nat × Proc σ) :=
  match main wr (Proc.start env d0) with
  | none => none
  | some (_, st) => some (0, st)

/-! ## Devices -/

/-- A standard output that takes every byte: the device state is the text
written so far, and every `Write` succeeds in full. -/
def reliable : Writer String where
  write := fun d p => (d ++ p, { n := p.utf8ByteSize, err := none })

/-- A standard output on which every `Write` fails without writing anything;
the device state counts the calls. -/
def broken : Writer Nat where
  write := fun d _ => (d + 1, { n := 0, err := some "write /dev/stdout: bad file descriptor" })

/-- State of the device after the `Write` calls with payloads `ps`, in order. -/
def devAfter {σ : Type} (wr : Writer σ) (d0 : σ) (ps : List String) : σ :=
  ps.foldl (fun d p => (wr.write d p).1) d0

/-- The five lines of the program, as the payloads of its five writes. -/
def fiveLines : List String :=
  [" Starting Go emoji test...\n",
   "Status:  Success\n",
   "Mode:  Test Mode\n",
   "Version:  V1.0\n",
   " Go test complete!\n"]

/-- What the program writes on a reliable standard output that starts empty. -/
def stdoutText (env : Env) : Option String :=
  (runMain reliable env "").map (fun r => r.2.dev)

/-- The predicate that a character lies outside the ASCII range. -/
def nonASCII (c : Char) : Bool := decide (127 < c.toNat)

/-! ## Facts about the five lines -/

/-- Every character of each of the five lines is an ASCII character. -/
theorem fiveLines_chars_ascii : ∀ p ∈ fiveLines, ∀ c ∈ p.toList, nonASCII c = false := by
  decide

/-- Every character of the five lines put together is an ASCII character. -/
theorem fiveLines_join_chars_ascii :
    ∀ c ∈ (String.join fiveLines).toList, nonASCII c = false := by
  decide

/-- Every byte of the UTF-8 encoding of the five lines is below 128. -/
theorem fiveLines_join_bytes_ascii :
    ∀ b ∈ (String.join fiveLines).toUTF8.data.toList, b.toNat < 128 := by
  decide

/-! ## Properties of the program -/

/-- C1: on a standard output that starts empty and takes every byte, a run of
`main` in any surroundings writes exactly the five newline-terminated lines
" Starting Go emoji test...", "Status:  Success", "Mode:  Test Mode",
"Version:  V1.0", " Go test complete!", in this order, with nothing before,
between or after them, and this text is the concatenation of the five payloads:
the two `Println` literals each followed by a newline and the three formats
with `%s` replaced by the values of `status`, `mode` and `version`. -/
theorem main_writes_exactly_five_lines (env : Env) :
    stdoutText env =
        some (" Starting Go emoji test...\nStatus:  Success\nMode:  Test Mode\n" ++
              "Version:  V1.0\n Go test complete!\n")
      ∧ (runMain reliable env "").map (fun r => r.2.calls) =
          some [" Starting Go emoji test..." ++ "\n",
                "Status: " ++ " Success" ++ "\n",
                "Mode: " ++ " Test Mode" ++ "\n",
                "Version: " ++ " V1.0" ++ "\n",
                " Go test complete!" ++ "\n"]
      ∧ stdoutText env =
          (runMain reliable env "").map (fun r => String.join r.2.calls) :=
  ⟨rfl, rfl, rfl⟩

/-- C2 (evaluation of the code): in any surroundings the program terminates and
every payload it writes, hence its whole output and every string literal printed
by `main`, consists of ASCII characters only: no character has a code point
above 127 and no byte of the UTF-8 output is above 127.  The output contains no
emoji code point. -/
theorem main_output_is_ascii_only (env : Env) :
    ∃ st : Proc String, runMain reliable env "" = some (0, st)
      ∧ st.calls = fiveLines
      ∧ (∀ p ∈ st.calls, ∀ c ∈ p.toList, nonASCII c = false)
      ∧ (∀ c ∈ st.dev.toList, nonASCII c = false)
      ∧ (∀ b ∈ st.dev.toUTF8.data.toList, b.toNat < 128) :=
  ⟨{ env := env, dev := String.join fiveLines, calls := fiveLines },
    rfl, rfl, fiveLines_chars_ascii, fiveLines_join_chars_ascii, fiveLines_join_bytes_ascii⟩

/-- C3: the output of `main` does not depend on any input.  For any two runs, in
arbitrary surroundings (arguments, environment variables, files) and on arbitrary
standard-output devices, the sequence of byte payloads handed to standard output
is the same; on the same device started in the same state the exit status and
the final device state are the same; and on a standard output that takes every
byte the bytes written are the same. -/
theorem main_output_independent_of_input (e1 e2 : Env) (σ1 σ2 : Type)
    (w1 : Writer σ1) (w2 : Writer σ2) (d1 : σ1) (d2 : σ2) :
    (∃ bs : List ByteArray,
        (runMain w1 e1 d1).map (fun r => r.2.calls.map String.toUTF8) = some bs
        ∧ (runMain w2 e2 d2).map (fun r => r.2.calls.map String.toUTF8) = some bs)
      ∧ (∃ x : Nat × σ1,
        (runMain w1 e1 d1).map (fun r => (r.1, r.2.dev)) = some x
        ∧ (runMain w1 e2 d1).map (fun r => (r.1, r.2.dev)) = some x)
      ∧ (∃ out : ByteArray,
        (stdoutText e1).map String.toUTF8 = some out
        ∧ (stdoutText e2).map String.toUTF8 = some out) :=
  ⟨⟨fiveLines.map String.toUTF8, rfl, rfl⟩,
    ⟨(0, devAfter w1 d1 fiveLines), rfl, rfl⟩,
    ⟨(String.join fiveLines).toUTF8, rfl, rfl⟩⟩

/-- C4: `main` has no failure path and no branching.  For every writer behind
standard output, whatever each `Write` returns (success or an error) and
whatever state it leaves, a run of `main` issues exactly the five writes of
`Println`, `Printf`, `Printf`, `Printf`, `Println` in source order, the device
ends in the state reached by these five writes, every returned error is
discarded, and the program exits normally with status 0.  In particular this
holds on a standard output where every write fails. -/
theorem main_issues_five_writes_whatever_they_return (σ : Type) (wr : Writer σ)
    (env : Env) (d0 : σ) :
    runMain wr env d0 =
        some (0, { env := env, dev := devAfter wr d0 fiveLines, calls := fiveLines })
      ∧ devAfter wr d0 fiveLines =
          (wr.write (wr.write (wr.write (wr.write (wr.write d0
            " Starting Go emoji test...\n").1
            "Status:  Success\n").1
            "Mode:  Test Mode\n").1
            "Version:  V1.0\n").1
            " Go test complete!\n").1
      ∧ runMain broken env 0 = some (0, { env := env, dev := 5, calls := fiveLines }) :=
  ⟨rfl, rfl, rfl⟩

end Test13
